import Mathlib

/-!
Shallow embedding of the image-source resolution / managed-image lifecycle
protocol and the variant price selector of the e-commerce storefront
components `ImageManager.tsx` (ImagePreview, removeAt, onFiles) and
`ProductCard.tsx`, together with theorems settling the specification claims.
-/

namespace Tayaima

/-! ## String utilities (JS `String.prototype.includes` / `startsWith`) -/

/-- Boolean prefix test on character lists. -/
def charsPrefix : List Char → List Char → Bool
  | [], _ => true
  | _ :: _, [] => false
  | a :: as, b :: bs => a == b && charsPrefix as bs

/-- Boolean substring containment on character lists: some suffix of `s`
has `pat` as a prefix. -/
def charsIncludes (pat : List Char) : List Char → Bool
  | [] => pat.isEmpty
  | c :: t => charsPrefix pat (c :: t) || charsIncludes pat t

/-- Embeds JS `s.includes(pat)`. -/
def strIncludes (s pat : String) : Bool :=
  charsIncludes pat.data s.data

/-- Embeds JS `s.startsWith(p)`. -/
def startsWithStr (s p : String) : Bool :=
  charsPrefix p.data s.data

/-! ## Image reference classification

`ImageManager.tsx` line 21 (ImagePreview) and `ProductCard.tsx` line 70:
`src.includes('.s3.') || src.includes('amazonaws.com')`. -/

/-- Embeds `const isS3Url = src.includes('.s3.') || src.includes('amazonaws.com')`. -/
def isS3Url (src : String) : Bool :=
  strIncludes src ".s3." || strIncludes src "amazonaws.com"

/-- The two reference classes of the spec's data model. -/
inductive RefClass where
  | remoteObjectURL
  | localPath
  deriving DecidableEq

/-- Classification as the rendering code performs it: the object-storage
pattern is tested first and takes precedence (ImagePreview line 63,
ProductCard line 70); anything else is treated as a direct/local path. -/
def classify (s : String) : RefClass :=
  if isS3Url s then .remoteObjectURL else .localPath

/-- Embeds the managed-reference test of `removeAt` line 90:
`imageUrl && (imageUrl.includes('.s3.') || imageUrl.includes('amazonaws.com')
|| imageUrl.startsWith('/uploads/'))`; JS falsiness of the empty string is
made explicit. -/
def isManagedUrl (u : String) : Bool :=
  !u.isEmpty &&
    (strIncludes u ".s3." || strIncludes u "amazonaws.com" ||
      startsWithStr u "/uploads/")

/-! ## ProductCard: variants and price display -/

/-- Embeds the `ProductVariant` record of `ProductCard.tsx` lines 10-16. -/
structure ProductVariant where
  id : String
  unit : String
  amount : Int
  price : Int
  stock : Int
  deriving DecidableEq

/-- Embeds `selectedVariant` (ProductCard lines 43-46):
`if (!hasVariants) return null; return variants.find(v => v.id ===
selectedVariantId) || variants[0]`. A null `selectedVariantId` is `none`;
JS `===` against `null` is false for every string id. -/
def selectedVariant (variants : List ProductVariant)
    (selectedVariantId : Option String) : Option ProductVariant :=
  if variants.isEmpty then none
  else
    match variants.find? (fun v => selectedVariantId == some v.id) with
    | some v => some v
    | none => variants.head?

/-- Embeds `minPrice = hasVariants ? Math.min(...variants.map(v => v.price)) : 0`
(ProductCard line 48). -/
def minPrice : List ProductVariant → Int
  | [] => 0
  | v :: vs => (vs.map (fun w => w.price)).foldl min v.price

/-- Embeds `maxPrice = hasVariants ? Math.max(...variants.map(v => v.price)) : 0`
(ProductCard line 49). -/
def maxPrice : List ProductVariant → Int
  | [] => 0
  | v :: vs => (vs.map (fun w => w.price)).foldl max v.price

/-- The price shown by the card, abstracting the INR formatting: which price
or price range is displayed. -/
inductive PriceDisplay where
  | notAvailable
  | single (p : Int)
  | range (lo hi : Int)
  deriving DecidableEq

/-- Embeds the displayed-price branching of ProductCard lines 115-123:
`!hasVariants ? "Price not available" : selectedVariant ?
formatPrice(selectedVariant.price) : minPrice === maxPrice ?
formatPrice(minPrice) : range`. -/
def displayedPrice (variants : List ProductVariant)
    (selectedVariantId : Option String) : PriceDisplay :=
  if variants.isEmpty then .notAvailable
  else
    match selectedVariant variants selectedVariantId with
    | some v => .single v.price
    | none =>
      if minPrice variants = maxPrice variants then .single (minPrice variants)
      else .range (minPrice variants) (maxPrice variants)

/-! ## ImagePreview: the signing resolver as an event machine

`ImagePreview` (ImageManager lines 15-81) keeps `signedUrl`, `loading`,
`error` React state; its effect (lines 23-51), re-run whenever `src`
changes, issues a signing request for S3 references; the response handler
applies `data.signedUrl` (or the error flag) without checking which
reference the response was for. We model the cooperative interleaving of
the spec's concurrency section: events are prop changes and responses,
each response tagged with the reference its request was issued for. -/

/-- React state of one `ImagePreview` instance, plus bookkeeping for the
requests it has issued (`pending`: outstanding; `requests`: full log). -/
structure PreviewState where
  src : String
  signedUrl : String
  loading : Bool
  error : Bool
  pending : List String
  requests : List String
  deriving DecidableEq

/-- Embeds the synchronous part of the effect (lines 23-35): for an S3
reference set `loading`, clear `error`, and issue a signing request for
the current `src`; otherwise do nothing. -/
def runEffect (s : PreviewState) : PreviewState :=
  if isS3Url s.src then
    { s with loading := true, error := false,
             pending := s.pending ++ [s.src],
             requests := s.requests ++ [s.src] }
  else s

/-- Mounting with reference `src`: `useState` initial values
(`signedUrl = src`, `loading = false`, `error = false`, lines 16-18)
followed by the first effect run. -/
def initPreview (src : String) : PreviewState :=
  runEffect { src := src, signedUrl := src, loading := false, error := false,
              pending := [], requests := [] }

/-- The `src` prop changes; the effect re-runs because `src` is in its
dependency array (line 51). A value equal to the current one re-runs
nothing. -/
def stepProp (s : PreviewState) (newSrc : String) : PreviewState :=
  if newSrc == s.src then s else runEffect { s with src := newSrc }

/-- A response arrives for the outstanding request that was issued for
reference `u`, carrying `data.signedUrl` (`some url`) or a failure
(`none`: missing field, non-2xx body, or transport rejection — all reach
the catch, lines 40-49). The handler (lines 36-49) applies the result
unconditionally: it never compares `u` with the current `src`. -/
def stepResponse (s : PreviewState) (u : String) (result : Option String) :
    PreviewState :=
  if u ∈ s.pending then
    let t := { s with pending := s.pending.erase u }
    match result with
    | some newUrl => { t with signedUrl := newUrl, loading := false }
    | none => { t with error := true, loading := false }
  else s

/-- Run a sequence of response events. -/
def runResponses (s : PreviewState) : List (String × Option String) → PreviewState
  | [] => s
  | (u, r) :: evs => runResponses (stepResponse s u r) evs

/-- What the component renders (lines 53-73): the loading placeholder, the
failure placeholder, a plain `img` with the signed URL for S3 references,
or the Next.js `Image` with the reference itself. -/
inductive View where
  | loadingView
  | failedView
  | imgTag (url : String)
  | nextImage (url : String)
  deriving DecidableEq

/-- Embeds the render branching of `ImagePreview` (lines 55-73). -/
def render (s : PreviewState) : View :=
  if s.loading then .loadingView
  else if s.error then .failedView
  else if isS3Url s.src then .imgTag s.signedUrl
  else .nextImage s.src

/-! ## ProductCard: image fallback (line 33 and line 70) -/

/-- Embeds `product.images[0] || '/placeholder-product.jpg'` (line 33),
with JS falsiness of the empty string made explicit. -/
def imageUrl (images : List String) : String :=
  match images.head? with
  | some s => if s.isEmpty then "/placeholder-product.jpg" else s
  | none => "/placeholder-product.jpg"

/-- Embeds the card's image branching (line 70): plain `img` for S3
references, Next.js `Image` otherwise. -/
def cardImageView (images : List String) : View :=
  if isS3Url (imageUrl images) then .imgTag (imageUrl images)
  else .nextImage (imageUrl images)

/-! ## ManagedImageLifecycle: `removeAt` (ImageManager lines 86-125) -/

/-- Parsed JSON body of the delete collaborator's response: the `error`
and `message` fields the code reads (lines 106, 112). -/
structure DeleteBody where
  error : Option String
  message : Option String
  deriving DecidableEq

/-- An HTTP response as `removeAt` observes it: `response.ok` and the
parsed body. -/
structure DeleteHttpResponse where
  ok : Bool
  body : DeleteBody
  deriving DecidableEq

/-- The delete collaborator: a transport-level exception (`fetch`
rejection or `response.json()` parse failure, both landing in the catch
of lines 115-119) or a parsed response. -/
def DeleteResult := Except Unit DeleteHttpResponse

/-- Outcome of one `removeAt` call: the delete requests issued and the
argument handed to `onChange` (`none` when the callback was not invoked). -/
structure RemoveResult where
  requests : List String
  newImages : Option (List String)
  deriving DecidableEq

/-- Embeds `images.filter((_, i) => i !== idx)` (line 123) as an indexed
filter; `i` is the running index the JS callback receives. -/
def filterIdxNe : List String → Nat → Nat → List String
  | [], _, _ => []
  | a :: t, i, idx =>
    if i = idx then filterIdxNe t (i + 1) idx
    else a :: filterIdxNe t (i + 1) idx

/-- The filter of line 123, starting the index at 0. -/
def removeIdxFilter (l : List String) (idx : Nat) : List String :=
  filterIdxNe l 0 idx

/-- Embeds `removeAt` (lines 86-125): look up `images[idx]`; if the
reference is managed (line 90) issue a delete request and return without
invoking `onChange` on a transport exception or a non-ok status (lines
103-119); otherwise — and on success — hand `onChange` the indexed filter
of line 123. Out-of-range lookup yields `undefined`, which is falsy, so
the managed branch is skipped. -/
def removeAt (images : List String) (idx : Nat)
    (collab : String → DeleteResult) : RemoveResult :=
  match images[idx]? with
  | some u =>
    if isManagedUrl u then
      match collab u with
      | .error _ => { requests := [u], newImages := none }
      | .ok resp =>
        if !resp.ok then { requests := [u], newImages := none }
        else { requests := [u], newImages := some (removeIdxFilter images idx) }
    else { requests := [], newImages := some (removeIdxFilter images idx) }
  | none => { requests := [], newImages := some (removeIdxFilter images idx) }

/-! ## Upload: `onFiles` (ImageManager lines 128-143) -/

/-- Parsed JSON body of the upload collaborator's 2xx response, with the
possibly-absent `urls` field the code defaults to `[]` (line 137). -/
structure UploadResponse where
  ok : Bool
  urls : Option (List String)
  deriving DecidableEq

/-- Embeds `onFiles` (lines 128-143): an empty (or null, modelled as
empty) file list returns immediately; a transport exception or a non-ok
response invokes no callback; on `res.ok` the callback receives
`[...images, ...urls]` with `urls = data.urls || []`. The result is the
argument handed to `onChange`, `none` when the callback was not invoked. -/
def onFiles (images : List String) (files : List String)
    (res : Except Unit UploadResponse) : Option (List String) :=
  if files.isEmpty then none
  else
    match res with
    | .error _ => none
    | .ok r => if r.ok then some (images ++ r.urls.getD []) else none

/-! ## Helper lemmas -/

theorem find_false_none (vs : List ProductVariant) :
    vs.find? (fun _ => false) = none := by
  induction vs with
  | nil => rfl
  | cons v vs ih => simp [ih]

theorem filterIdxNe_of_lt (l : List String) :
    ∀ i idx : Nat, idx < i → filterIdxNe l i idx = l := by
  induction l with
  | nil => intro i idx _; rfl
  | cons a t ih =>
    intro i idx h
    have hne : ¬ i = idx := Nat.ne_of_gt h
    simp only [filterIdxNe, if_neg hne]
    rw [ih (i + 1) idx (Nat.lt_succ_of_lt h)]

theorem filterIdxNe_shift (l : List String) :
    ∀ i k : Nat, filterIdxNe l i (i + k) = l.eraseIdx k := by
  induction l with
  | nil => intro i k; rfl
  | cons a t ih =>
    intro i k
    cases k with
    | zero =>
      simp only [filterIdxNe, Nat.add_zero, if_pos rfl, List.eraseIdx_cons_zero]
      exact filterIdxNe_of_lt t (i + 1) i (Nat.lt_succ_self i)
    | succ m =>
      have hne : ¬ i = i + (m + 1) := by omega
      have hsh : i + (m + 1) = (i + 1) + m := by omega
      simp only [filterIdxNe, if_neg hne, List.eraseIdx_cons_succ]
      rw [hsh, ih (i + 1) m]

/-- The indexed filter of line 123 is exactly removal of the element at
`idx`. -/
theorem removeIdxFilter_eq_eraseIdx (l : List String) (idx : Nat) :
    removeIdxFilter l idx = l.eraseIdx idx := by
  have h := filterIdxNe_shift l 0 idx
  simpa [removeIdxFilter] using h

theorem eraseIdx_of_length_le (l : List String) :
    ∀ idx : Nat, l.length ≤ idx → l.eraseIdx idx = l := by
  induction l with
  | nil => intro idx _; rfl
  | cons a t ih =>
    intro idx h
    cases idx with
    | zero => simp at h
    | succ m =>
      simp only [List.eraseIdx_cons_succ]
      rw [ih m (by simpa using h)]

theorem runResponses_pending_nil (evs : List (String × Option String)) :
    ∀ s : PreviewState, s.pending = [] → runResponses s evs = s := by
  induction evs with
  | nil => intro s _; rfl
  | cons ev evs ih =>
    intro s hp
    obtain ⟨u, r⟩ := ev
    have hstep : stepResponse s u r = s := by simp [stepResponse, hp]
    show runResponses (stepResponse s u r) evs = s
    rw [hstep]
    exact ih s hp

/-! ## Claim theorems -/

/-- C1, counterexample: with variants priced 300 and 700 and a null
selected id, the card displays the single price 300 (the first variant's
price), not the closed interval [300, 700], even though the min and max
over the variants are 300 and 700. -/
theorem c1_counterexample :
    displayedPrice [⟨"a", "KG", 1, 300, 10⟩, ⟨"b", "KG", 2, 700, 10⟩] none
        = PriceDisplay.single 300 ∧
    displayedPrice [⟨"a", "KG", 1, 300, 10⟩, ⟨"b", "KG", 2, 700, 10⟩] none
        ≠ PriceDisplay.range 300 700 ∧
    minPrice [⟨"a", "KG", 1, 300, 10⟩, ⟨"b", "KG", 2, 700, 10⟩] = 300 ∧
    maxPrice [⟨"a", "KG", 1, 300, 10⟩, ⟨"b", "KG", 2, 700, 10⟩] = 700 := by
  decide

/-- C1, amended: whenever the variant list is non-empty and the selected
id is null, the selection falls back to the first variant and the card
displays that variant's exact price; the min–max range branch is
unreachable while variants exist. -/
theorem c1_null_selection_shows_first_price (v : ProductVariant)
    (vs : List ProductVariant) :
    displayedPrice (v :: vs) none = PriceDisplay.single v.price := by
  simp [displayedPrice, selectedVariant, find_false_none]

/-- C2: the claim that a stale signing result is never applied fails on
the code. Trace: mount with an S3 reference, change the reference while
the first request is outstanding, then let the first (now stale) response
arrive. The handler applies it: the state holds the new reference but the
stale signed URL, `loading` is cleared although the new reference's
request is still pending, and the component renders the stale URL. -/
theorem c2_stale_response_applied :
    (stepProp (initPreview "b.s3.x/1.jpg") "b.s3.x/2.jpg").pending
        = ["b.s3.x/1.jpg", "b.s3.x/2.jpg"] ∧
    (stepResponse (stepProp (initPreview "b.s3.x/1.jpg") "b.s3.x/2.jpg")
        "b.s3.x/1.jpg" (some "signed-1")).src = "b.s3.x/2.jpg" ∧
    (stepResponse (stepProp (initPreview "b.s3.x/1.jpg") "b.s3.x/2.jpg")
        "b.s3.x/1.jpg" (some "signed-1")).signedUrl = "signed-1" ∧
    (stepResponse (stepProp (initPreview "b.s3.x/1.jpg") "b.s3.x/2.jpg")
        "b.s3.x/1.jpg" (some "signed-1")).loading = false ∧
    (stepResponse (stepProp (initPreview "b.s3.x/1.jpg") "b.s3.x/2.jpg")
        "b.s3.x/1.jpg" (some "signed-1")).error = false ∧
    (stepResponse (stepProp (initPreview "b.s3.x/1.jpg") "b.s3.x/2.jpg")
        "b.s3.x/1.jpg" (some "signed-1")).pending = ["b.s3.x/2.jpg"] ∧
    render (stepResponse (stepProp (initPreview "b.s3.x/1.jpg") "b.s3.x/2.jpg")
        "b.s3.x/1.jpg" (some "signed-1")) = View.imgTag "signed-1" := by
  decide

/-- C3, counterexample: the string "/uploads/pic.s3.jpg" both matches the
object-storage pattern and begins with the local-storage prefix, so the
claimed unambiguity fails. -/
theorem c3_counterexample :
    isS3Url "/uploads/pic.s3.jpg" = true ∧
    startsWithStr "/uploads/pic.s3.jpg" "/uploads/" = true := by
  decide

/-- C3, amended: classification is a pure function of the string, fully
determined by the object-storage pattern test, which takes precedence:
a string is classified RemoteObjectURL exactly when it matches the
object-storage pattern, even if it also begins with "/uploads/". -/
theorem c3_classification_by_pattern (s : String) :
    classify s = RefClass.remoteObjectURL ↔ isS3Url s = true := by
  by_cases h : isS3Url s = true <;> simp [classify, h]

/-- C4, counterexample: a 2xx response whose body carries an error field
still removes the image — the callback is invoked with the shortened
list, so the claim that an error body leaves the list unchanged fails. -/
theorem c4_counterexample :
    (removeAt ["/uploads/a.jpg"] 0
        (fun _ => Except.ok ⟨true, ⟨some "boom", none⟩⟩)).newImages
      = some [] ∧
    (removeAt ["/uploads/a.jpg"] 0
        (fun _ => Except.ok ⟨true, ⟨some "boom", none⟩⟩)).newImages
      ≠ none ∧
    (removeAt ["/uploads/a.jpg"] 0
        (fun _ => Except.ok ⟨true, ⟨some "boom", none⟩⟩)).newImages
      ≠ some ["/uploads/a.jpg"] := by
  decide

/-- C4, amended: for a managed reference, if the delete collaborator
returns a non-2xx status or a transport-level exception occurs, the
list-replacement callback is never invoked; the body's error field is not
consulted, so a 2xx response with an error body is treated as success. -/
theorem c4_failure_leaves_list_unchanged (images : List String) (idx : Nat)
    (u : String) (collab : String → DeleteResult)
    (hu : images[idx]? = some u) (hm : isManagedUrl u = true)
    (hfail : collab u = Except.error () ∨
      ∃ body, collab u = Except.ok ⟨false, body⟩) :
    (removeAt images idx collab).newImages = none := by
  rcases hfail with hfail | ⟨body, hfail⟩ <;> simp [removeAt, hu, hm, hfail]

/-- C4 witness: a transport exception on a managed local upload leaves the
callback uninvoked. -/
theorem c4_failure_leaves_list_unchanged_witness :
    (["/uploads/a.jpg"] : List String)[0]? = some "/uploads/a.jpg" ∧
    isManagedUrl "/uploads/a.jpg" = true ∧
    (removeAt ["/uploads/a.jpg"] 0 (fun _ => Except.error ())).newImages
      = none :=
  ⟨by decide, by decide,
    c4_failure_leaves_list_unchanged ["/uploads/a.jpg"] 0 "/uploads/a.jpg"
      (fun _ => Except.error ()) (by decide) (by decide) (Or.inl rfl)⟩

/-- C5: if the reference at the index exists and the delete collaborator
answers it with a 2xx response, the callback receives the input list with
exactly the element at that index removed, all others in original order. -/
theorem c5_delete_success (images : List String) (idx : Nat) (u : String)
    (collab : String → DeleteResult)
    (hu : images[idx]? = some u)
    (hok : ∃ body, collab u = Except.ok ⟨true, body⟩) :
    (removeAt images idx collab).newImages = some (images.eraseIdx idx) := by
  obtain ⟨body, hok⟩ := hok
  by_cases hm : isManagedUrl u = true
  · simp [removeAt, hu, hm, hok, removeIdxFilter_eq_eraseIdx]
  · simp [removeAt, hu, hm, removeIdxFilter_eq_eraseIdx]

/-- C5 witness: deleting the only (managed) image with a 2xx collaborator
yields the empty list. -/
theorem c5_delete_success_witness :
    (["b.s3.x/a.jpg"] : List String)[0]? = some "b.s3.x/a.jpg" ∧
    (removeAt ["b.s3.x/a.jpg"] 0
        (fun _ => Except.ok ⟨true, ⟨none, some "deleted"⟩⟩)).newImages
      = some [] :=
  ⟨by decide,
    c5_delete_success ["b.s3.x/a.jpg"] 0 "b.s3.x/a.jpg"
      (fun _ => Except.ok ⟨true, ⟨none, some "deleted"⟩⟩) (by decide)
      ⟨⟨none, some "deleted"⟩, rfl⟩⟩

/-- C6: for a reference not matching the object-storage pattern, mounting
issues no signing request, the state is synchronously the initial one with
the reference as its renderable URL, no sequence of response events can
change it, loading and error are never set, and the component renders the
reference itself through the direct branch. -/
theorem c6_local_path_direct (src : String) (h : isS3Url src = false)
    (evs : List (String × Option String)) :
    runResponses (initPreview src) evs = initPreview src ∧
    (initPreview src).requests = [] ∧
    (initPreview src).signedUrl = src ∧
    (initPreview src).loading = false ∧
    (initPreview src).error = false ∧
    render (initPreview src) = View.nextImage src := by
  have hinit : initPreview src =
      { src := src, signedUrl := src, loading := false, error := false,
        pending := [], requests := [] } := by
    simp [initPreview, runEffect, h]
  refine ⟨?_, ?_, ?_, ?_, ?_, ?_⟩
  · exact runResponses_pending_nil evs _ (by rw [hinit])
  · rw [hinit]
  · rw [hinit]
  · rw [hinit]
  · rw [hinit]
  · rw [hinit]; simp [render, h]

/-- C6 witness: the local path "/uploads/a.jpg" resolves directly. -/
theorem c6_local_path_direct_witness :
    isS3Url "/uploads/a.jpg" = false ∧
    (runResponses (initPreview "/uploads/a.jpg") [] = initPreview "/uploads/a.jpg" ∧
      (initPreview "/uploads/a.jpg").requests = [] ∧
      (initPreview "/uploads/a.jpg").signedUrl = "/uploads/a.jpg" ∧
      (initPreview "/uploads/a.jpg").loading = false ∧
      (initPreview "/uploads/a.jpg").error = false ∧
      render (initPreview "/uploads/a.jpg") = View.nextImage "/uploads/a.jpg") :=
  ⟨by decide, c6_local_path_direct "/uploads/a.jpg" (by decide) []⟩

/-- C7: deleting an unmanaged reference — one neither matching the
object-storage pattern nor starting with "/uploads/" — issues no delete
request and hands the caller the list with the element at the index
removed, whatever the collaborator would answer. -/
theorem c7_unmanaged_direct (images : List String) (idx : Nat) (u : String)
    (collab : String → DeleteResult)
    (hu : images[idx]? = some u)
    (h1 : isS3Url u = false)
    (h2 : startsWithStr u "/uploads/" = false) :
    removeAt images idx collab =
      { requests := [], newImages := some (images.eraseIdx idx) } := by
  simp only [isS3Url, Bool.or_eq_false_iff] at h1
  have hm : isManagedUrl u = false := by
    simp [isManagedUrl, h1.1, h1.2, h2]
  simp [removeAt, hu, hm, removeIdxFilter_eq_eraseIdx]

/-- C7 witness: an arbitrary external URL is removed without any delete
request even against an always-failing collaborator. -/
theorem c7_unmanaged_direct_witness :
    (["https://cdn.example/p.jpg"] : List String)[0]?
      = some "https://cdn.example/p.jpg" ∧
    isS3Url "https://cdn.example/p.jpg" = false ∧
    startsWithStr "https://cdn.example/p.jpg" "/uploads/" = false ∧
    removeAt ["https://cdn.example/p.jpg"] 0 (fun _ => Except.error ())
      = { requests := [], newImages := some [] } :=
  ⟨by decide, by decide, by decide,
    c7_unmanaged_direct ["https://cdn.example/p.jpg"] 0
      "https://cdn.example/p.jpg" (fun _ => Except.error ()) (by decide)
      (by decide) (by decide)⟩

/-- C8: a non-empty file selection answered by a 2xx response with a urls
array hands the caller the input list with the returned URLs appended at
the end, preserving every pre-existing entry and its position. -/
theorem c8_upload_append (images files urls : List String) (h : files ≠ []) :
    onFiles images files (Except.ok ⟨true, some urls⟩)
      = some (images ++ urls) := by
  have hne : files.isEmpty = false := by
    cases files with
    | nil => exact absurd rfl h
    | cons a t => rfl
  simp [onFiles, hne]

/-- C8 witness: uploading two files onto a one-element list appends the
two returned URLs after the existing entry. -/
theorem c8_upload_append_witness :
    (["a.jpg"] : List String) ≠ [] ∧
    onFiles ["/uploads/old.jpg"] ["a.jpg"]
        (Except.ok ⟨true, some ["/uploads/u1.jpg", "/uploads/u2.jpg"]⟩)
      = some ["/uploads/old.jpg", "/uploads/u1.jpg", "/uploads/u2.jpg"] :=
  ⟨by decide,
    c8_upload_append ["/uploads/old.jpg"] ["a.jpg"]
      ["/uploads/u1.jpg", "/uploads/u2.jpg"] (by decide)⟩

/-- C9: with an empty images list the card's image URL is the fixed
placeholder, a non-empty string that does not match the object-storage
pattern, so the card renders it through the direct branch. -/
theorem c9_empty_images_placeholder :
    imageUrl [] = "/placeholder-product.jpg" ∧
    isS3Url (imageUrl []) = false ∧
    cardImageView [] = View.nextImage "/placeholder-product.jpg" ∧
    imageUrl [] ≠ "" := by
  decide

/-- C10: an out-of-range index issues no delete request and hands the
caller a list element-wise equal to the input, whatever the collaborator
would answer. -/
theorem c10_out_of_range_noop (images : List String) (idx : Nat)
    (collab : String → DeleteResult) (h : images.length ≤ idx) :
    removeAt images idx collab = { requests := [], newImages := some images } := by
  have hnone : images[idx]? = none := by simp [h]
  simp [removeAt, hnone, removeIdxFilter_eq_eraseIdx,
    eraseIdx_of_length_le images idx h]

/-- C10 witness: index 5 on a one-element list removes nothing and issues
no request. -/
theorem c10_out_of_range_noop_witness :
    (["/uploads/a.jpg"] : List String).length ≤ 5 ∧
    removeAt ["/uploads/a.jpg"] 5 (fun _ => Except.error ())
      = { requests := [], newImages := some ["/uploads/a.jpg"] } :=
  ⟨by decide,
    c10_out_of_range_noop ["/uploads/a.jpg"] 5 (fun _ => Except.error ())
      (by decide)⟩

end Tayaima
